import Mathlib

/-!
Verification of the HR analytics dashboard's KPI aggregation and filtering
engine (`hr/analytics.py`, `hr/filters.py`, `hr/validation.py`).

The record store (Django ORM) is modelled as in-memory lists of rows; calendar
dates inside the analytics layer are day numbers (`Int`), so `date.today()`
becomes an explicit `today` parameter and `timedelta(days = n)` is subtraction.
Foreign keys (`emp`) are modelled by the employee's primary key `emp_id`, and a
Django join lookup such as `emp__department = d` becomes an existential over the
employee table, exactly as the generated SQL `EXISTS` subquery.  Python's
`round(x, 2)` is modelled as exact half-even rounding on rationals.
-/

/-- The `Employee` row (`hr/models.py`): `emp_id` is the primary key. -/
structure Employee where
  emp_id : String
  name : String
  department : String
  join_date : Int
  status : String
deriving DecidableEq, Repr

/-- The `Attendance` row (`hr/models.py`): one row per employee per day. -/
structure Attendance where
  emp_id : String
  date : Int
  status : String
deriving DecidableEq, Repr

/-- The `LeaveRecord` row (`hr/models.py`). -/
structure LeaveRecord where
  emp_id : String
  leave_type : String
  start_date : Int
  end_date : Int
  duration : Int
  approved : Bool
deriving DecidableEq, Repr

/-- The `AttritionRecord` row (`hr/models.py`): one-to-one with `Employee`. -/
structure AttritionRecord where
  emp_id : String
  exit_date : Int
  reason : String
deriving DecidableEq, Repr

/-- The record store: the four tables the analytics layer queries. -/
structure Store where
  employees : List Employee
  attendance : List Attendance
  leaves : List LeaveRecord
  attrition : List AttritionRecord
deriving DecidableEq, Repr

/-- Django `field__range=[lo, hi]`: inclusive on both ends. -/
def inRange (d lo hi : Int) : Bool := lo ≤ d && d ≤ hi

/-- Rational floor via flooring integer division. -/
def ratFloor (q : ℚ) : ℤ := q.num.fdiv q.den

/-- Round-half-even to an integer, the rounding Python's `round` uses
(modelled exactly on rationals rather than on binary floats). -/
def roundHalfEven (q : ℚ) : ℤ :=
  let n := ratFloor q
  let f := q - (n : ℚ)
  if f < 1/2 then n
  else if 1/2 < f then n + 1
  else if n % 2 = 0 then n else n + 1

/-- Python `round(x, 2)`. -/
def round2 (q : ℚ) : ℚ := (roundHalfEven (q * 100) : ℚ) / 100

/-- Python truthiness of the optional `emp_id` argument (`if emp_id:`):
`None` and the empty string are falsy. -/
def empTruthy : Option String → Bool
  | none => false
  | some i => !(i == "")

/-- The `Employee.objects.filter(status='active')`. -/
def activeEmployees (s : Store) : List Employee :=
  s.employees.filter (fun e => e.status = "active")

/-- The `Employee.objects.filter(status='active').values('department').distinct()`
(`analytics.py` line 43): the distinct departments of active employees. -/
def distinctDepts (s : Store) : List String :=
  ((activeEmployees s).map (fun e => e.department)).dedup

/-- The attendance queryset of `get_attendance_percentage`
(`analytics.py` lines 18-20): window filter, then the optional
`emp__emp_id` filter guarded by Python truthiness. -/
def attendanceQuery (s : Store) (emp_id : Option String) (start stop : Int) :
    List Attendance :=
  let q := s.attendance.filter (fun a => inRange a.date start stop)
  match emp_id with
  | some i => if i = "" then q else q.filter (fun a => a.emp_id = i)
  | none => q

/-- The `query.filter(status__in=['present', 'half-day'])`. -/
def presentRows (l : List Attendance) : List Attendance :=
  l.filter (fun a => a.status = "present" || a.status = "half-day")

/-- The `AttendanceAnalytics.get_attendance_percentage` (`analytics.py` lines
10-33).  The returned Python dict is modelled as an association list in the
source's key insertion order; note the zero-row branch returns only three
keys, with no `absent_days`. -/
def get_attendance_percentage (s : Store) (emp_id : Option String)
    (start_date end_date : Option Int) (today : Int) : List (String × ℚ) :=
  let start := start_date.getD (today - 30)
  let stop := end_date.getD today
  let query := attendanceQuery s emp_id start stop
  let total_records := query.length
  if total_records = 0 then
    [("attendance_percentage", 0), ("total_days", 0), ("present_days", 0)]
  else
    let present_days := (presentRows query).length
    [("attendance_percentage",
       round2 ((present_days : ℚ) / (total_records : ℚ) * 100)),
     ("total_days", (total_records : ℚ)),
     ("present_days", (present_days : ℚ)),
     ("absent_days", ((total_records - present_days : Nat) : ℚ))]

/-- Result row of `get_departmental_attendance`: the zero-row branch has no
`present` key, modelled with an `Option`. -/
structure DeptAttendance where
  percentage : ℚ
  count : Nat
  present : Option Nat
deriving DecidableEq, Repr

/-- The `Employee.objects.filter(department=dept, status='active')`
(`analytics.py` line 48). -/
def dept_active_employees (s : Store) (dept : String) : List Employee :=
  s.employees.filter (fun e => e.department = dept && e.status = "active")

/-- The `Attendance.objects.filter(emp__in=dept_emps, date__range=[start, end])`
(`analytics.py` lines 50-53). -/
def dept_attendance_records (s : Store) (dept : String) (start stop : Int) :
    List Attendance :=
  s.attendance.filter (fun a =>
    (dept_active_employees s dept).any (fun e => e.emp_id = a.emp_id)
      && inRange a.date start stop)

/-- The `AttendanceAnalytics.get_departmental_attendance` (`analytics.py` lines
35-67): one entry per distinct department of active employees. -/
def get_departmental_attendance (s : Store) (start_date end_date : Option Int)
    (today : Int) : List (String × DeptAttendance) :=
  let start := start_date.getD (today - 30)
  let stop := end_date.getD today
  (distinctDepts s).map (fun dept =>
    let attendance_records := dept_attendance_records s dept start stop
    let total := attendance_records.length
    if total = 0 then (dept, { percentage := 0, count := 0, present := none })
    else
      let present := (presentRows attendance_records).length
      (dept, { percentage := round2 ((present : ℚ) / (total : ℚ) * 100),
               count := total, present := some present }))

/-- Stable insertion into a count-descending list (models the SQL
`ORDER BY count DESC` of the `annotate(count=...).order_by('-count')`
querysets; tie order is not semantically significant). -/
def insertByCountDesc (x : String × Nat) : List (String × Nat) → List (String × Nat)
  | [] => [x]
  | y :: ys => if x.2 > y.2 then x :: y :: ys else y :: insertByCountDesc x ys

/-- Sort an association list descending by count. -/
def sortByCountDesc : List (String × Nat) → List (String × Nat)
  | [] => []
  | x :: xs => insertByCountDesc x (sortByCountDesc xs)

/-- The approved-leave window queryset shared by the leave aggregators
(`LeaveRecord.objects.filter(start_date__range=[start, end], approved=True)`). -/
def leavesWindow (s : Store) (start stop : Int) : List LeaveRecord :=
  s.leaves.filter (fun l => inRange l.start_date start stop && l.approved)

/-- The `LeaveAnalytics.get_leave_distribution` (`analytics.py` lines 73-86):
approved leave counts grouped by `leave_type`, descending by count. -/
def get_leave_distribution (s : Store) (start_date end_date : Option Int)
    (today : Int) : List (String × Nat) :=
  let start := start_date.getD (today - 365)
  let stop := end_date.getD today
  let rows := leavesWindow s start stop
  sortByCountDesc (((rows.map (fun l => l.leave_type)).dedup).map
    (fun t => (t, rows.countP (fun l => l.leave_type = t))))

/-- Result of `get_total_leaves`. -/
structure TotalLeaves where
  total_leaves : Nat
  total_days : Int
  average_duration : ℚ
deriving DecidableEq, Repr

/-- The `LeaveAnalytics.get_total_leaves` (`analytics.py` lines 88-111):
`aggregate(Sum('duration')) or 0` is the list sum (SQL `SUM` over no rows is
`NULL`, turned into `0` by the `or`). -/
def get_total_leaves (s : Store) (emp_id : Option String)
    (start_date end_date : Option Int) (today : Int) : TotalLeaves :=
  let start := start_date.getD (today - 365)
  let stop := end_date.getD today
  let query := leavesWindow s start stop
  let query := match emp_id with
    | some i => if i = "" then query else query.filter (fun l => l.emp_id = i)
    | none => query
  let total_duration := (query.map (fun l => l.duration)).sum
  let total_leaves := query.length
  { total_leaves := total_leaves
    total_days := total_duration
    average_duration :=
      if total_leaves > 0 then round2 ((total_duration : ℚ) / (total_leaves : ℚ))
      else 0 }

/-- Result row of `get_departmental_leaves`. -/
structure DeptLeaves where
  total_leaves : Nat
  total_days : Int
deriving DecidableEq, Repr

/-- The per-department leave queryset of `get_departmental_leaves`
(`LeaveRecord.objects.filter(emp__department=dept, start_date__range=...,
approved=True)`, `analytics.py` lines 126-130); `emp__department = d` is the
SQL join `EXISTS (employee with this pk and department d)`. -/
def dept_leaves (s : Store) (dept : String) (start stop : Int) :
    List LeaveRecord :=
  s.leaves.filter (fun l =>
    s.employees.any (fun e => e.emp_id = l.emp_id && e.department = dept)
      && (inRange l.start_date start stop && l.approved))

/-- The `LeaveAnalytics.get_departmental_leaves` (`analytics.py` lines 113-138):
departments are those of active employees only. -/
def get_departmental_leaves (s : Store) (start_date end_date : Option Int)
    (today : Int) : List (String × DeptLeaves) :=
  let start := start_date.getD (today - 365)
  let stop := end_date.getD today
  (distinctDepts s).map (fun dept =>
    let dl := dept_leaves s dept start stop
    (dept, { total_leaves := dl.length
             total_days := (dl.map (fun l => l.duration)).sum }))

/-- Result of `get_attrition_rate`. -/
structure AttritionRate where
  attrition_rate : ℚ
  separated_count : Nat
  employee_count : Nat
deriving DecidableEq, Repr

/-- The `AttritionAnalytics.get_attrition_rate` (`analytics.py` lines 144-170).
Note the zero-active-employees branch returns the literal `separated_count := 0`
whatever the window contains. -/
def get_attrition_rate (s : Store) (start_date end_date : Option Int)
    (today : Int) : AttritionRate :=
  let start := start_date.getD (today - 365)
  let stop := end_date.getD today
  let separated :=
    (s.attrition.filter (fun a => inRange a.exit_date start stop)).length
  let avg_employees := (activeEmployees s).length
  if avg_employees = 0 then
    { attrition_rate := 0, separated_count := 0, employee_count := avg_employees }
  else
    { attrition_rate := round2 ((separated : ℚ) / (avg_employees : ℚ) * 100)
      separated_count := separated
      employee_count := avg_employees }

/-- The `AttritionAnalytics.get_attrition_by_reason` (`analytics.py` lines
172-184): window attrition counts grouped by reason, descending by count. -/
def get_attrition_by_reason (s : Store) (start_date end_date : Option Int)
    (today : Int) : List (String × Nat) :=
  let start := start_date.getD (today - 365)
  let stop := end_date.getD today
  let rows := s.attrition.filter (fun a => inRange a.exit_date start stop)
  sortByCountDesc (((rows.map (fun a => a.reason)).dedup).map
    (fun r => (r, rows.countP (fun a => a.reason = r))))

/-- Result row of `get_departmental_attrition`. -/
structure DeptAttrition where
  attrition_rate : ℚ
  count : Nat
deriving DecidableEq, Repr

/-- The `AttritionAnalytics.get_departmental_attrition` (`analytics.py` lines
186-213): iterates the departments of ALL employees (active or not) and uses
the all-time department headcount as denominator. -/
def get_departmental_attrition (s : Store) (start_date end_date : Option Int)
    (today : Int) : List (String × DeptAttrition) :=
  let start := start_date.getD (today - 365)
  let stop := end_date.getD today
  let departments := (s.employees.map (fun e => e.department)).dedup
  departments.map (fun dept =>
    let dept_employees :=
      (s.employees.filter (fun e => e.department = dept)).length
    let dept_attrition :=
      (s.attrition.filter (fun a =>
        s.employees.any (fun e => e.emp_id = a.emp_id && e.department = dept)
          && inRange a.exit_date start stop)).length
    if dept_employees = 0 then (dept, { attrition_rate := 0, count := 0 })
    else
      (dept, { attrition_rate :=
                 round2 ((dept_attrition : ℚ) / (dept_employees : ℚ) * 100)
               count := dept_attrition }))

/-- The `EmployeeAnalytics.get_total_employees` (`analytics.py` lines 219-226). -/
def get_total_employees (s : Store) (status : Option String) : Nat :=
  match status with
  | some st => if st = "" then s.employees.length
               else (s.employees.filter (fun e => e.status = st)).length
  | none => s.employees.length

/-- Result of `get_summary_kpis`. -/
structure SummaryKpis where
  total_employees : Nat
  attendance : List (String × ℚ)
  leaves : TotalLeaves
  attrition : AttritionRate
deriving DecidableEq, Repr

/-- The `EmployeeAnalytics.get_summary_kpis` (`analytics.py` lines 237-255):
omitted bounds are resolved to `today - 30` / `today` HERE, and the resolved
window is passed explicitly to every component. -/
def get_summary_kpis (s : Store) (start_date end_date : Option Int)
    (today : Int) : SummaryKpis :=
  let start := start_date.getD (today - 30)
  let stop := end_date.getD today
  { total_employees := (activeEmployees s).length
    attendance := get_attendance_percentage s none (some start) (some stop) today
    leaves := get_total_leaves s none (some start) (some stop) today
    attrition := get_attrition_rate s (some start) (some stop) today }

/-- The `DashboardFilter` (`hr/filters.py` lines 6-10) with its date defaults
resolved at construction (`start_date or (date.today() - timedelta(days=30))`). -/
structure DashboardFilter where
  department : Option String
  start_date : Int
  end_date : Int
deriving DecidableEq, Repr

/-- The `DashboardFilter.__init__`. -/
def DashboardFilter.make (department : Option String)
    (start_date end_date : Option Int) (today : Int) : DashboardFilter :=
  { department := department
    start_date := start_date.getD (today - 30)
    end_date := end_date.getD today }

/-- The `DashboardFilter.filter_employees`. -/
def DashboardFilter.filter_employees (f : DashboardFilter) (s : Store) :
    List Employee :=
  let q := activeEmployees s
  match f.department with
  | some d => if d = "" then q else q.filter (fun e => e.department = d)
  | none => q

/-- The `DashboardFilter.filter_attendance`. -/
def DashboardFilter.filter_attendance (f : DashboardFilter) (s : Store) :
    List Attendance :=
  let q := s.attendance.filter (fun a => inRange a.date f.start_date f.end_date)
  match f.department with
  | some d => if d = "" then q else q.filter (fun a =>
      s.employees.any (fun e => e.emp_id = a.emp_id && e.department = d))
  | none => q

/-- The `DashboardFilter.filter_leaves`. -/
def DashboardFilter.filter_leaves (f : DashboardFilter) (s : Store) :
    List LeaveRecord :=
  let q := leavesWindow s f.start_date f.end_date
  match f.department with
  | some d => if d = "" then q else q.filter (fun l =>
      s.employees.any (fun e => e.emp_id = l.emp_id && e.department = d))
  | none => q

/-- The `DashboardFilter.filter_attrition`. -/
def DashboardFilter.filter_attrition (f : DashboardFilter) (s : Store) :
    List AttritionRecord :=
  let q := s.attrition.filter (fun a => inRange a.exit_date f.start_date f.end_date)
  match f.department with
  | some d => if d = "" then q else q.filter (fun a =>
      s.employees.any (fun e => e.emp_id = a.emp_id && e.department = d))
  | none => q

/-- Python truthiness of an optional string (`if not start_date`):
`None` and the empty string are falsy. -/
def strTruthy : Option String → Bool
  | none => false
  | some s => !(s == "")

/-- A `datetime.date`: year, month, day. -/
structure PyDate where
  year : Nat
  month : Nat
  day : Nat
deriving DecidableEq, Repr

/-- Gregorian leap year, as `calendar.isleap` / `datetime` use it. -/
def isLeapYear (y : Nat) : Bool := y % 4 = 0 && (y % 100 ≠ 0 || y % 400 = 0)

/-- Number of days of a month (`datetime._days_in_month`). -/
def daysInMonth (y m : Nat) : Nat :=
  if m = 2 then (if isLeapYear y then 29 else 28)
  else if m = 4 ∨ m = 6 ∨ m = 9 ∨ m = 11 then 30
  else 31

/-- Days in the years before year `y` (`datetime._days_before_year`). -/
def daysBeforeYear (y : Nat) : Nat :=
  (y - 1) * 365 + (y - 1) / 4 - (y - 1) / 100 + (y - 1) / 400

/-- Days in year `y` before month `m` (`datetime._days_before_month`). -/
def daysBeforeMonth (y m : Nat) : Nat :=
  (List.range (m - 1)).foldl (fun acc i => acc + daysInMonth y (i + 1)) 0

/-- Proleptic-Gregorian ordinal of a date (`datetime.date.toordinal`), so that
`(end - start).days = toOrdinal end - toOrdinal start`. -/
def toOrdinal (d : PyDate) : Nat :=
  daysBeforeYear d.year + daysBeforeMonth d.year d.month + d.day

/-- The `datetime.date` comparison (lexicographic on year, month, day). -/
def dateLt (a b : PyDate) : Bool :=
  a.year < b.year
    || (a.year = b.year
        && (a.month < b.month || (a.month = b.month && a.day < b.day)))

/-- Split a character list at every `'-'` (the literal separators of the
`'%Y-%m-%d'` format). -/
def splitDash : List Char → List (List Char)
  | [] => [[]]
  | '-' :: rest => [] :: splitDash rest
  | c :: rest =>
    match splitDash rest with
    | [] => [[c]]
    | p :: ps => (c :: p) :: ps

/-- Numeric value of a non-empty all-digit chunk, `none` otherwise. -/
def digitsVal (cs : List Char) : Option Nat :=
  if cs ≠ [] && cs.all Char.isDigit then
    some (cs.foldl (fun n c => n * 10 + (c.toNat - 48)) 0)
  else none

/-- The `datetime.strptime(s, '%Y-%m-%d').date()` as a total function:
the strptime regex demands exactly four digits for `%Y` and one or two digits
for `%m` (value 1-12) and `%d` (value 1-31), consuming the whole string, and
the `date` constructor then requires `year ≥ 1` and the day to exist in the
month.  Returns `none` where Python raises `ValueError`. -/
def parseDate (s : String) : Option PyDate :=
  match (splitDash s.toList).map digitsVal with
  | [some y, some m, some d] =>
    if ((splitDash s.toList).map List.length) = [4, 1, 1]
        ∨ ((splitDash s.toList).map List.length) = [4, 1, 2]
        ∨ ((splitDash s.toList).map List.length) = [4, 2, 1]
        ∨ ((splitDash s.toList).map List.length) = [4, 2, 2] then
      if 1 ≤ y ∧ 1 ≤ m ∧ m ≤ 12 ∧ 1 ≤ d ∧ d ≤ 31 ∧ d ≤ daysInMonth y m then
        some { year := y, month := m, day := d }
      else none
    else none
  | _ => none

/-- The `DataValidator.validate_date_range` (`hr/validation.py` lines 8-28):
returns `(ok, error_message)`.  Absent (`None`) or empty arguments short-cut
to success; both strings are then parsed, order-checked, and the span is
limited to 1825 days (the code's five-year bound). -/
def validate_date_range (start_date end_date : Option String) :
    Bool × Option String :=
  if !strTruthy start_date || !strTruthy end_date then (true, none)
  else
    match parseDate (start_date.getD ""), parseDate (end_date.getD "") with
    | some start, some stop =>
      if dateLt stop start then
        (false, some "Start date must be before end date")
      else if (toOrdinal stop : Int) - (toOrdinal start : Int) > 1825 then
        (false, some "Date range cannot exceed 5 years")
      else (true, none)
    | _, _ => (false, some "Invalid date format. Use YYYY-MM-DD")

/-! ### Helper lemmas for the grouping arguments -/

/-- Two booleans agreeing as propositions are equal. -/
theorem bool_eq_of_iff {a b : Bool} (h : a = true ↔ b = true) : a = b := by
  cases a <;> cases b <;> simp_all

/-- In a duplicate-free list, the elements equal to a member count to one. -/
theorem countP_eq_one_nodup {l : List String} (hl : l.Nodup) {a : String}
    (ha : a ∈ l) : l.countP (fun d => decide (d = a)) = 1 := by
  induction l with
  | nil => cases ha
  | cons b l ih =>
    rw [List.countP_cons]
    rcases List.mem_cons.mp ha with rfl | hm
    · have hz : l.countP (fun d => decide (d = a)) = 0 :=
        List.countP_eq_zero.mpr (fun x hx hdec =>
          (List.nodup_cons.mp hl).1 ((of_decide_eq_true hdec) ▸ hx))
      simp [hz]
    · have hne : ¬(b = a) := fun hba => (List.nodup_cons.mp hl).1 (hba ▸ hm)
      simp [ih (List.nodup_cons.mp hl).2 hm, hne]

/-- Under unique employee ids, a per-department membership test selects
exactly one department of the iterated list: the unique matching employee's
department (or none, when no employee matches).  `p d e` is the per-department
row predicate, `q` the extra employee condition it carries. -/
theorem countP_depts_unique (emps : List Employee)
    (hnd : (emps.map (fun e => e.emp_id)).Nodup)
    (depts : List String) (hdnd : depts.Nodup) (rid : String)
    (p : String → Employee → Bool) (q : Employee → Bool)
    (hp : ∀ d ∈ depts, ∀ e ∈ emps,
      (p d e = true ↔ (e.emp_id = rid ∧ q e = true ∧ e.department = d)))
    (hq : ∀ e ∈ emps, q e = true → e.department ∈ depts) :
    depts.countP (fun d => emps.any (p d))
      = if emps.any (fun e => e.emp_id = rid && q e) then 1 else 0 := by
  by_cases hex : ∃ e ∈ emps, e.emp_id = rid ∧ q e = true
  · obtain ⟨e0, he0, hid, hqe⟩ := hex
    have hany : emps.any (fun e => e.emp_id = rid && q e) = true :=
      List.any_eq_true.mpr ⟨e0, he0, by simp [hid, hqe]⟩
    rw [hany, if_pos rfl]
    have hcong : ∀ d ∈ depts,
        (emps.any (p d) = true ↔ (decide (d = e0.department) = true)) := by
      intro d hd
      constructor
      · intro h
        obtain ⟨e, he, hpe⟩ := List.any_eq_true.mp h
        obtain ⟨hid', _, hdept⟩ := (hp d hd e he).mp hpe
        have heq : e = e0 :=
          List.inj_on_of_nodup_map hnd he he0 (by rw [hid', hid])
        exact decide_eq_true (by rw [← hdept, heq])
      · intro h
        exact List.any_eq_true.mpr
          ⟨e0, he0, (hp d hd e0 he0).mpr ⟨hid, hqe, (of_decide_eq_true h).symm⟩⟩
    rw [List.countP_congr hcong]
    exact countP_eq_one_nodup hdnd (hq e0 he0 hqe)
  · have hany : emps.any (fun e => e.emp_id = rid && q e) = false := by
      apply Bool.eq_false_iff.mpr
      intro h
      obtain ⟨e, he, hpe⟩ := List.any_eq_true.mp h
      rw [Bool.and_eq_true] at hpe
      exact hex ⟨e, he, of_decide_eq_true hpe.1, hpe.2⟩
    rw [hany]
    simp only [Bool.false_eq_true, if_false]
    refine List.countP_eq_zero.mpr (fun d hd h => ?_)
    obtain ⟨e, he, hpe⟩ := List.any_eq_true.mp h
    obtain ⟨hid', hq', _⟩ := (hp d hd e he).mp hpe
    exact hex ⟨e, he, hid', hq'⟩

/-- Summing `f + (0 or 1)` over a list splits into the sum of `f` plus a
`countP`. -/
theorem sum_map_ite_succ (l : List String) (p : String → Bool)
    (f : String → Nat) :
    (l.map (fun d => if p d then f d + 1 else f d)).sum
      = (l.map f).sum + l.countP p := by
  induction l with
  | nil => simp
  | cons a l ih =>
    simp only [List.map_cons, List.sum_cons, List.countP_cons, ih]
    by_cases hpa : p a = true <;> simp [hpa] <;> omega

/-- Counting partition: when, for every row, exactly `Q r`-many (0 or 1) of
the iterated groups select it, the groupwise counts sum to the `Q`-count. -/
theorem sum_counts_partition {α : Type} (depts : List String) (rows : List α)
    (P : String → α → Bool) (Q : α → Bool)
    (h : ∀ r ∈ rows, depts.countP (fun d => P d r) = if Q r then 1 else 0) :
    (depts.map (fun d => (rows.filter (fun r => P d r)).length)).sum
      = (rows.filter Q).length := by
  induction rows with
  | nil => simp
  | cons r rows ih =>
    have hr := h r (List.mem_cons_self r rows)
    have ih' := ih (fun x hx => h x (List.mem_cons_of_mem r hx))
    have hmap : depts.map (fun d => ((r :: rows).filter (fun x => P d x)).length)
        = depts.map (fun d =>
            if P d r then (rows.filter (fun x => P d x)).length + 1
            else (rows.filter (fun x => P d x)).length) := by
      refine List.map_congr_left (fun d _ => ?_)
      rw [List.filter_cons]
      split <;> simp
    rw [hmap, sum_map_ite_succ, ih', hr, List.filter_cons]
    by_cases hq : Q r = true <;> simp [hq]

/-- Summing `(c or 0) + f` over a list splits into `countP * c` plus the sum
of `f`. -/
theorem sum_map_ite_add (l : List String) (p : String → Bool)
    (f : String → Int) (c : Int) :
    (l.map (fun d => if p d then c + f d else f d)).sum
      = (l.countP p : Int) * c + (l.map f).sum := by
  induction l with
  | nil => simp
  | cons a l ih =>
    simp only [List.map_cons, List.sum_cons, List.countP_cons, ih]
    by_cases hpa : p a = true <;> simp [hpa] <;> ring

/-- Weighted partition: the groupwise weight sums add up to the weight sum of
the rows selected by `Q`, when each row is selected by exactly `Q r`-many
groups. -/
theorem sum_wsums_partition {α : Type} (depts : List String) (rows : List α)
    (P : String → α → Bool) (Q : α → Bool) (w : α → Int)
    (h : ∀ r ∈ rows, depts.countP (fun d => P d r) = if Q r then 1 else 0) :
    (depts.map (fun d => ((rows.filter (fun r => P d r)).map w).sum)).sum
      = ((rows.filter Q).map w).sum := by
  induction rows with
  | nil => simp
  | cons r rows ih =>
    have hr := h r (List.mem_cons_self r rows)
    have ih' := ih (fun x hx => h x (List.mem_cons_of_mem r hx))
    have hmap : depts.map (fun d => (((r :: rows).filter (fun x => P d x)).map w).sum)
        = depts.map (fun d =>
            if P d r then w r + ((rows.filter (fun x => P d x)).map w).sum
            else ((rows.filter (fun x => P d x)).map w).sum) := by
      refine List.map_congr_left (fun d _ => ?_)
      rw [List.filter_cons]
      split <;> simp
    rw [hmap, sum_map_ite_add, ih', hr, List.filter_cons]
    by_cases hq : Q r = true <;> simp [hq]

/-! ### Concrete stores used by counterexamples and witnesses -/

/-- Store with one approved leave 100 days in the past (relative to
`today = 200`), no other rows: separates a 30-day from a 365-day window. -/
def storeLeave365 : Store := ⟨[], [], [⟨"E1", "sick", 100, 101, 3, true⟩], []⟩

/-- Store with one attrition row and no active employees. -/
def storeNoActive : Store := ⟨[], [], [], [⟨"E1", 5, "voluntary"⟩]⟩

/-- Store with an approved leave whose employee is inactive and alone in the
department "X": "X" is not a department of any active employee. -/
def storeOrphanLeave : Store :=
  ⟨[⟨"E1", "n", "X", 0, "inactive"⟩], [], [⟨"E1", "sick", 5, 6, 5, true⟩], []⟩

/-- The empty store. -/
def emptyStore : Store := ⟨[], [], [], []⟩

/-- Store with one active employee and one present attendance row. -/
def storeOneRow : Store :=
  ⟨[⟨"E1", "n", "Eng", 0, "active"⟩], [⟨"E1", 5, "present"⟩], [], []⟩

/-- Store with one active employee and one approved in-window leave. -/
def storeOneLeave : Store :=
  ⟨[⟨"E1", "n", "Eng", 0, "active"⟩], [], [⟨"E1", "sick", 5, 6, 4, true⟩], []⟩

/-! ### Claim theorems -/

/-- C1 (counterexample): `get_summary_kpis` with both dates omitted does NOT
give the `total_leaves` component its own 365-day default window: with
`today = 200` and one approved leave starting on day 100, the composed leaves
KPI sees nothing (30-day window) while `get_total_leaves` with its own default
window counts it. -/
theorem summary_kpis_default_cex :
    ¬ ((get_summary_kpis storeLeave365 none none 200).leaves
        = get_total_leaves storeLeave365 none none none 200) := by
  decide

/-- C1 (amended): when start and end are omitted, `get_summary_kpis` resolves
BOTH to its own 30-day default (`today - 30` to `today`) and passes that
resolved window to every component, so the attendance component behaves as its
own default, while the `total_leaves` and `attrition_rate` components receive
the 30-day window instead of their 365-day defaults. -/
theorem summary_kpis_forwarded_window (s : Store) (today : Int) :
    (get_summary_kpis s none none today).total_employees
        = (activeEmployees s).length
  ∧ (get_summary_kpis s none none today).attendance
        = get_attendance_percentage s none none none today
  ∧ (get_summary_kpis s none none today).leaves
        = get_total_leaves s none (some (today - 30)) (some today) today
  ∧ (get_summary_kpis s none none today).attrition
        = get_attrition_rate s (some (today - 30)) (some today) today :=
  ⟨rfl, rfl, rfl, rfl⟩

/-- C3 (counterexample): with zero active employees and one attrition row
inside the window, `get_attrition_rate` reports `separated_count = 0`, not the
number of attrition rows with `exit_date` in the window (which is 1). -/
theorem attrition_rate_cex :
    ¬ ((get_attrition_rate storeNoActive (some 0) (some 10) 0).separated_count
        = (storeNoActive.attrition.filter
            (fun a => inRange a.exit_date 0 10)).length) := by
  decide

/-- C3 (amended): the rate is `round2 (separated / active * 100)` when the
active count is positive and `0` when it is zero, exactly as claimed; the
`separated_count` field equals the number of attrition rows with `exit_date`
in the window except in the zero-active branch, where the whole result is the
constant `⟨0, 0, 0⟩`. -/
theorem attrition_rate_spec (s : Store) (st en : Option Int) (today : Int) :
    get_attrition_rate s st en today =
      if (activeEmployees s).length = 0 then ⟨0, 0, 0⟩
      else
        { attrition_rate :=
            round2 (((s.attrition.countP (fun a =>
                decide (st.getD (today - 365) ≤ a.exit_date
                  ∧ a.exit_date ≤ en.getD today))) : ℚ)
              / (((activeEmployees s).length : Nat) : ℚ) * 100)
          separated_count := s.attrition.countP (fun a =>
            decide (st.getD (today - 365) ≤ a.exit_date
              ∧ a.exit_date ≤ en.getD today))
          employee_count := (activeEmployees s).length } := by
  have hsep : s.attrition.countP (fun a =>
        decide (st.getD (today - 365) ≤ a.exit_date
          ∧ a.exit_date ≤ en.getD today))
      = (s.attrition.filter (fun a =>
          inRange a.exit_date (st.getD (today - 365)) (en.getD today))).length := by
    rw [List.countP_eq_length_filter]
    exact congrArg _ (List.filter_congr (fun a _ => by simp [inRange]))
  rw [hsep]
  by_cases h0 : (activeEmployees s).length = 0 <;>
    simp [get_attrition_rate, h0]

/-- C4: whenever the (optionally employee-restricted) attendance queryset of
the resolved window is empty, `get_attendance_percentage` returns exactly the
three-key mapping `{attendance_percentage: 0, total_days: 0, present_days: 0}`
(total function: no exception is possible). -/
theorem attendance_percentage_zero_rows (s : Store) (eid : Option String)
    (st en : Option Int) (today : Int)
    (h : (attendanceQuery s eid (st.getD (today - 30)) (en.getD today)).length
          = 0) :
    get_attendance_percentage s eid st en today
      = [("attendance_percentage", 0), ("total_days", 0), ("present_days", 0)] := by
  simp [get_attendance_percentage, h]

/-- C4 (witness): the hypothesis holds and the theorem applies at the empty
store. -/
theorem attendance_percentage_zero_rows_witness :
    (attendanceQuery emptyStore none ((none : Option Int).getD (0 - 30))
        ((none : Option Int).getD 0)).length = 0
  ∧ get_attendance_percentage emptyStore none none none 0
      = [("attendance_percentage", 0), ("total_days", 0), ("present_days", 0)] :=
  ⟨by decide, attendance_percentage_zero_rows emptyStore none none none 0 (by decide)⟩

/-- C5 (counterexample): the key set of `get_attendance_percentage` is NOT
fixed across all cases: on the empty store the zero-row branch omits
`absent_days`, returning only three keys. -/
theorem attendance_keys_cex :
    (get_attendance_percentage emptyStore none none none 0).map Prod.fst
        = ["attendance_percentage", "total_days", "present_days"]
  ∧ ¬ ("absent_days"
        ∈ (get_attendance_percentage emptyStore none none none 0).map Prod.fst) := by
  decide

/-- C5 (amended): `get_attendance_percentage` returns the four keys
`attendance_percentage, total_days, present_days, absent_days` whenever the
window holds at least one row, and only the first three (no `absent_days`)
in the zero-row case. -/
theorem attendance_percentage_keys (s : Store) (eid : Option String)
    (st en : Option Int) (today : Int) :
    (get_attendance_percentage s eid st en today).map Prod.fst
      = if (attendanceQuery s eid (st.getD (today - 30)) (en.getD today)).length = 0
        then ["attendance_percentage", "total_days", "present_days"]
        else ["attendance_percentage", "total_days", "present_days", "absent_days"] := by
  by_cases h : (attendanceQuery s eid (st.getD (today - 30)) (en.getD today)).length = 0
    <;> simp [get_attendance_percentage, h]

/-- C8: every aggregator and the Dashboard Filter fill an omitted start date
with `today - 30` (attendance views, the filter) or `today - 365` (every
leave and attrition aggregation), and an omitted end date with `today`. -/
theorem default_windows_policy (s : Store) (eid dep : Option String)
    (st en : Option Int) (today : Int) :
    (get_attendance_percentage s eid none en today
        = get_attendance_percentage s eid (some (today - 30)) en today
      ∧ get_attendance_percentage s eid st none today
        = get_attendance_percentage s eid st (some today) today)
  ∧ (get_departmental_attendance s none en today
        = get_departmental_attendance s (some (today - 30)) en today
      ∧ get_departmental_attendance s st none today
        = get_departmental_attendance s st (some today) today)
  ∧ (DashboardFilter.make dep none en today
        = DashboardFilter.make dep (some (today - 30)) en today
      ∧ DashboardFilter.make dep st none today
        = DashboardFilter.make dep st (some today) today)
  ∧ (get_leave_distribution s none en today
        = get_leave_distribution s (some (today - 365)) en today
      ∧ get_leave_distribution s st none today
        = get_leave_distribution s st (some today) today)
  ∧ (get_total_leaves s eid none en today
        = get_total_leaves s eid (some (today - 365)) en today
      ∧ get_total_leaves s eid st none today
        = get_total_leaves s eid st (some today) today)
  ∧ (get_departmental_leaves s none en today
        = get_departmental_leaves s (some (today - 365)) en today
      ∧ get_departmental_leaves s st none today
        = get_departmental_leaves s st (some today) today)
  ∧ (get_attrition_rate s none en today
        = get_attrition_rate s (some (today - 365)) en today
      ∧ get_attrition_rate s st none today
        = get_attrition_rate s st (some today) today)
  ∧ (get_attrition_by_reason s none en today
        = get_attrition_by_reason s (some (today - 365)) en today
      ∧ get_attrition_by_reason s st none today
        = get_attrition_by_reason s st (some today) today)
  ∧ (get_departmental_attrition s none en today
        = get_departmental_attrition s (some (today - 365)) en today
      ∧ get_departmental_attrition s st none today
        = get_departmental_attrition s st (some today) today) :=
  ⟨⟨rfl, rfl⟩, ⟨rfl, rfl⟩, ⟨rfl, rfl⟩, ⟨rfl, rfl⟩, ⟨rfl, rfl⟩, ⟨rfl, rfl⟩,
   ⟨rfl, rfl⟩, ⟨rfl, rfl⟩, ⟨rfl, rfl⟩⟩

/-- C10: when either argument of `validate_date_range` is absent (`None`) or
empty, validation short-cuts to success, so a malformed partner string is
never parsed or rejected. -/
theorem validate_date_range_absent (s e : Option String) :
    validate_date_range s none = (true, none)
  ∧ validate_date_range none e = (true, none)
  ∧ validate_date_range s (some "") = (true, none)
  ∧ validate_date_range (some "") e = (true, none)
  ∧ validate_date_range (some "99-99") none = (true, none) :=
  ⟨by simp [validate_date_range, strTruthy],
   by simp [validate_date_range, strTruthy],
   by simp [validate_date_range, strTruthy],
   by simp [validate_date_range, strTruthy],
   by decide⟩

/-- C6: whenever the resolved window holds at least one attendance row, the
returned mapping satisfies `present_days + absent_days = total_days` and
`attendance_percentage = round2 (present / total * 100)`, with `present_days`
counting exactly the rows whose status is `present` or `half-day`
(`presentRows`). -/
theorem attendance_percentage_arithmetic (s : Store) (eid : Option String)
    (st en : Option Int) (today : Int)
    (h : 0 < (attendanceQuery s eid (st.getD (today - 30)) (en.getD today)).length) :
    (get_attendance_percentage s eid st en today).lookup "total_days"
        = some ((attendanceQuery s eid (st.getD (today - 30)) (en.getD today)).length : ℚ)
  ∧ (get_attendance_percentage s eid st en today).lookup "present_days"
        = some ((presentRows (attendanceQuery s eid (st.getD (today - 30)) (en.getD today))).length : ℚ)
  ∧ (get_attendance_percentage s eid st en today).lookup "absent_days"
        = some (((attendanceQuery s eid (st.getD (today - 30)) (en.getD today)).length
            - (presentRows (attendanceQuery s eid (st.getD (today - 30)) (en.getD today))).length : Nat) : ℚ)
  ∧ ((presentRows (attendanceQuery s eid (st.getD (today - 30)) (en.getD today))).length : ℚ)
      + (((attendanceQuery s eid (st.getD (today - 30)) (en.getD today)).length
            - (presentRows (attendanceQuery s eid (st.getD (today - 30)) (en.getD today))).length : Nat) : ℚ)
      = ((attendanceQuery s eid (st.getD (today - 30)) (en.getD today)).length : ℚ)
  ∧ (get_attendance_percentage s eid st en today).lookup "attendance_percentage"
        = some (round2
            (((presentRows (attendanceQuery s eid (st.getD (today - 30)) (en.getD today))).length : ℚ)
              / ((attendanceQuery s eid (st.getD (today - 30)) (en.getD today)).length : ℚ) * 100)) := by
  have hne : (attendanceQuery s eid (st.getD (today - 30)) (en.getD today)).length ≠ 0 :=
    Nat.pos_iff_ne_zero.mp h
  have hple : (presentRows (attendanceQuery s eid (st.getD (today - 30)) (en.getD today))).length
      ≤ (attendanceQuery s eid (st.getD (today - 30)) (en.getD today)).length :=
    List.length_filter_le _ _
  refine ⟨?_, ?_, ?_, ?_, ?_⟩
  · simp [get_attendance_percentage, hne, List.lookup]
  · simp [get_attendance_percentage, hne, List.lookup]
  · simp [get_attendance_percentage, hne, List.lookup]
  · rw [← Nat.cast_add, Nat.add_sub_cancel' hple]
  · simp [get_attendance_percentage, hne, List.lookup]

/-- C6 (witness): one present row in the window; the theorem applies with all
lookups evaluated. -/
theorem attendance_percentage_arithmetic_witness :
    0 < (attendanceQuery storeOneRow none ((none : Option Int).getD (10 - 30))
          ((none : Option Int).getD 10)).length
  ∧ (get_attendance_percentage storeOneRow none none none 10).lookup "total_days"
      = some ((attendanceQuery storeOneRow none ((none : Option Int).getD (10 - 30))
          ((none : Option Int).getD 10)).length : ℚ) :=
  ⟨by decide,
   (attendance_percentage_arithmetic storeOneRow none none none 10 (by decide)).1⟩

/-- C7: under unique employee ids (the `emp_id` primary-key invariant), the
departmental attendance counts partition the window's attendance rows of
active employees: their sum equals the number of in-window rows whose employee
is active, and every department with at least one active employee appears in
the result, reporting percentage 0 and count 0 when it has no in-window
rows. -/
theorem departmental_attendance_partition (s : Store) (st en : Option Int)
    (today : Int) (hnd : (s.employees.map (fun e => e.emp_id)).Nodup) :
    (((get_departmental_attendance s st en today).map (fun p => p.2.count)).sum
      = (s.attendance.filter (fun a =>
          inRange a.date (st.getD (today - 30)) (en.getD today)
            && s.employees.any (fun e =>
                 e.emp_id = a.emp_id && e.status = "active"))).length)
  ∧ ∀ d : String, (∃ e ∈ s.employees, e.status = "active" ∧ e.department = d) →
      ∃ v : DeptAttendance, (d, v) ∈ get_departmental_attendance s st en today
        ∧ ((dept_attendance_records s d (st.getD (today - 30))
              (en.getD today)).length = 0
            → v.percentage = 0 ∧ v.count = 0) := by
  constructor
  · have h1 : (get_departmental_attendance s st en today).map (fun p => p.2.count)
        = (distinctDepts s).map (fun d =>
            (dept_attendance_records s d (st.getD (today - 30))
              (en.getD today)).length) := by
      unfold get_departmental_attendance
      rw [List.map_map]
      refine List.map_congr_left (fun d _ => ?_)
      by_cases h0 : (dept_attendance_records s d (st.getD (today - 30))
          (en.getD today)).length = 0 <;>
        rw [List.length_eq_zero] at h0 <;> simp [h0]
    rw [h1]
    have h2 : ∀ d : String, dept_attendance_records s d (st.getD (today - 30))
          (en.getD today)
        = s.attendance.filter (fun a =>
            (dept_active_employees s d).any (fun e => e.emp_id = a.emp_id)
              && inRange a.date (st.getD (today - 30)) (en.getD today)) :=
      fun d => rfl
    refine sum_counts_partition (distinctDepts s) s.attendance
      (fun d a => (dept_active_employees s d).any (fun e => e.emp_id = a.emp_id)
        && inRange a.date (st.getD (today - 30)) (en.getD today))
      (fun a => inRange a.date (st.getD (today - 30)) (en.getD today)
        && s.employees.any (fun e => e.emp_id = a.emp_id && e.status = "active"))
      (fun a _ => ?_)
    cases hw : inRange a.date (st.getD (today - 30)) (en.getD today) with
    | false => simp [hw, List.countP_eq_zero]
    | true =>
      simp only [hw, Bool.and_true, Bool.true_and]
      simp only [dept_active_employees, List.any_filter]
      refine countP_depts_unique s.employees hnd (distinctDepts s)
        (List.nodup_dedup _) a.emp_id
        (fun d e => (e.department = d && e.status = "active") && e.emp_id = a.emp_id)
        (fun e => e.status = "active") (fun d _ e _ => ?_) (fun e he hqe => ?_)
      · simp only [Bool.and_eq_true, decide_eq_true_eq]
        tauto
      · exact List.mem_dedup.mpr (List.mem_map.mpr
          ⟨e, List.mem_filter.mpr ⟨he, hqe⟩, rfl⟩)
  · rintro d ⟨e, he, hact, hdept⟩
    have hd : d ∈ distinctDepts s :=
      List.mem_dedup.mpr (List.mem_map.mpr
        ⟨e, List.mem_filter.mpr ⟨he, by simp [hact]⟩, hdept⟩)
    by_cases h0 : (dept_attendance_records s d (st.getD (today - 30))
        (en.getD today)).length = 0
    · have h0l : dept_attendance_records s d (st.getD (today - 30))
          (en.getD today) = [] := List.length_eq_zero.mp h0
      refine ⟨⟨0, 0, none⟩, ?_, fun _ => ⟨rfl, rfl⟩⟩
      unfold get_departmental_attendance
      exact List.mem_map.mpr ⟨d, hd, by simp [h0l]⟩
    · have h0l : ¬ (dept_attendance_records s d (st.getD (today - 30))
          (en.getD today) = []) := fun hl => h0 (by simp [hl])
      refine ⟨⟨round2
          (((presentRows (dept_attendance_records s d (st.getD (today - 30))
              (en.getD today))).length : ℚ)
            / ((dept_attendance_records s d (st.getD (today - 30))
              (en.getD today)).length : ℚ) * 100),
          (dept_attendance_records s d (st.getD (today - 30))
            (en.getD today)).length,
          some (presentRows (dept_attendance_records s d
            (st.getD (today - 30)) (en.getD today))).length⟩,
        ?_, fun hc => absurd hc h0⟩
      unfold get_departmental_attendance
      exact List.mem_map.mpr ⟨d, hd, by simp [h0, h0l]⟩

/-- C7 (witness): at a one-employee, one-row store the id list is
duplicate-free, the partition sum evaluates to 1, and the department appears
in the result. -/
theorem departmental_attendance_partition_witness :
    (storeOneRow.employees.map (fun e => e.emp_id)).Nodup
  ∧ ((get_departmental_attendance storeOneRow none none 10).map
      (fun p => p.2.count)).sum = 1
  ∧ ∃ v : DeptAttendance,
      ("Eng", v) ∈ get_departmental_attendance storeOneRow none none 10 :=
  ⟨by decide,
   (departmental_attendance_partition storeOneRow none none 10 (by decide)).1.trans
     (by decide),
   Exists.imp (fun v hv => hv.1)
     ((departmental_attendance_partition storeOneRow none none 10 (by decide)).2
       "Eng" ⟨⟨"E1", "n", "Eng", 0, "active"⟩, by decide, by decide, rfl⟩)⟩

/-- C2 (counterexample): grouping is NOT sum-preserving in general: an
approved in-window leave of an inactive employee in department "X" (with no
active employee in "X") is counted by `get_total_leaves` but by no entry of
`get_departmental_leaves`, which only iterates departments of active
employees. -/
theorem total_leaves_grouping_cex :
    ¬ ((get_total_leaves storeOrphanLeave none (some 0) (some 10) 0).total_days
        = ((get_departmental_leaves storeOrphanLeave (some 0) (some 10) 0).map
            (fun p => p.2.total_days)).sum) := by
  decide

/-- C2 (amended): under the `emp_id` primary-key invariant, the departmental
day totals sum to the global `total_days` PROVIDED every approved in-window
leave belongs to an employee whose department is among the departments of
active employees (the set `get_departmental_leaves` iterates). -/
theorem total_leaves_grouping (s : Store) (st en : Option Int) (today : Int)
    (hnd : (s.employees.map (fun e => e.emp_id)).Nodup)
    (hcov : ∀ l ∈ s.leaves,
      inRange l.start_date (st.getD (today - 365)) (en.getD today) = true →
      l.approved = true →
      s.employees.any (fun e =>
        e.emp_id = l.emp_id && decide (e.department ∈ distinctDepts s)) = true) :
    (get_total_leaves s none st en today).total_days
      = ((get_departmental_leaves s st en today).map
          (fun p => p.2.total_days)).sum := by
  have h1 : (get_departmental_leaves s st en today).map (fun p => p.2.total_days)
      = (distinctDepts s).map (fun d =>
          ((s.leaves.filter (fun l =>
              s.employees.any (fun e => e.emp_id = l.emp_id && e.department = d)
                && (inRange l.start_date (st.getD (today - 365)) (en.getD today)
                    && l.approved))).map (fun l => l.duration)).sum) := by
    unfold get_departmental_leaves dept_leaves
    rw [List.map_map]
    rfl
  have hper : ∀ l ∈ s.leaves,
      (distinctDepts s).countP (fun d =>
        s.employees.any (fun e => e.emp_id = l.emp_id && e.department = d)
          && (inRange l.start_date (st.getD (today - 365)) (en.getD today)
              && l.approved))
      = if s.employees.any (fun e =>
            e.emp_id = l.emp_id && decide (e.department ∈ distinctDepts s))
          && (inRange l.start_date (st.getD (today - 365)) (en.getD today)
              && l.approved) then 1 else 0 := by
    intro l _
    cases hw : inRange l.start_date (st.getD (today - 365)) (en.getD today) with
    | false => simp [hw, List.countP_eq_zero]
    | true =>
      cases ha : l.approved with
      | false => simp [hw, ha, List.countP_eq_zero]
      | true =>
        simp only [hw, ha, Bool.and_true, Bool.true_and]
        refine countP_depts_unique s.employees hnd (distinctDepts s)
          (List.nodup_dedup _) l.emp_id
          (fun d e => e.emp_id = l.emp_id && e.department = d)
          (fun e => decide (e.department ∈ distinctDepts s))
          (fun d hd e _ => ?_) (fun e _ hqe => of_decide_eq_true hqe)
        simp only [Bool.and_eq_true, decide_eq_true_eq]
        constructor
        · rintro ⟨hid, hdept⟩
          exact ⟨hid, hdept ▸ hd, hdept⟩
        · rintro ⟨hid, _, hdept⟩
          exact ⟨hid, hdept⟩
  have h3 : s.leaves.filter (fun l =>
        s.employees.any (fun e =>
          e.emp_id = l.emp_id && decide (e.department ∈ distinctDepts s))
          && (inRange l.start_date (st.getD (today - 365)) (en.getD today)
              && l.approved))
      = leavesWindow s (st.getD (today - 365)) (en.getD today) := by
    refine List.filter_congr (fun l hl => ?_)
    cases hw : inRange l.start_date (st.getD (today - 365)) (en.getD today) with
    | false => simp [hw]
    | true =>
      cases ha : l.approved with
      | false => simp [hw, ha]
      | true => simp [hw, ha, hcov l hl hw ha]
  rw [h1, sum_wsums_partition (distinctDepts s) s.leaves _ _ _ hper, h3]
  rfl

/-- C2 (witness): at a store with one active employee and one approved
in-window leave both hypotheses hold and both sides equal 4. -/
theorem total_leaves_grouping_witness :
    ((get_total_leaves storeOneLeave none (some 0) (some 10) 0).total_days
      = ((get_departmental_leaves storeOneLeave (some 0) (some 10) 0).map
          (fun p => p.2.total_days)).sum)
  ∧ (get_total_leaves storeOneLeave none (some 0) (some 10) 0).total_days = 4 :=
  ⟨total_leaves_grouping storeOneLeave (some 0) (some 10) 0 (by decide) (by decide),
   by decide⟩

/-- C9: for non-empty date strings, `validate_date_range` reports an error
exactly when a string fails to parse as a `YYYY-MM-DD` date, or the parsed
start is after the end, or the span exceeds the five-year bound (1825 days, as
the code defines it); otherwise it succeeds with no error message. -/
theorem validate_date_range_spec (start_s end_s : String)
    (hs : start_s ≠ "") (he : end_s ≠ "") :
    ((validate_date_range (some start_s) (some end_s)).1 = false
      ↔ (parseDate start_s = none ∨ parseDate end_s = none
          ∨ ∃ ds de : PyDate, parseDate start_s = some ds
              ∧ parseDate end_s = some de
              ∧ (dateLt de ds = true
                 ∨ (toOrdinal de : Int) - (toOrdinal ds : Int) > 1825)))
  ∧ ((validate_date_range (some start_s) (some end_s)).1 = true
      → (validate_date_range (some start_s) (some end_s)).2 = none) := by
  have hcond : (!strTruthy (some start_s) || !strTruthy (some end_s)) = false := by
    simp [strTruthy, hs, he]
  unfold validate_date_range
  rw [hcond, if_neg (by simp : ¬ ((false : Bool) = true))]
  simp only [Option.getD_some]
  cases hps : parseDate start_s with
  | none =>
    simp [hps]
  | some ds =>
    cases hpe : parseDate end_s with
    | none =>
      simp [hps, hpe]
    | some de =>
      simp only [hps, hpe]
      by_cases hlt : dateLt de ds = true
      · rw [if_pos hlt]
        refine ⟨⟨fun _ => Or.inr (Or.inr ⟨ds, de, rfl, rfl, Or.inl hlt⟩),
          fun _ => rfl⟩, fun h => absurd h (by simp)⟩
      · rw [if_neg hlt]
        by_cases hdiff : (toOrdinal de : Int) - (toOrdinal ds : Int) > 1825
        · rw [if_pos hdiff]
          refine ⟨⟨fun _ => Or.inr (Or.inr ⟨ds, de, rfl, rfl, Or.inr hdiff⟩),
            fun _ => rfl⟩, fun h => absurd h (by simp)⟩
        · rw [if_neg hdiff]
          refine ⟨⟨fun h => absurd h (by simp), ?_⟩, fun _ => rfl⟩
          rintro (h | h | ⟨ds', de', hds', hde', hbad⟩)
          · exact absurd h (by simp)
          · exact absurd h (by simp)
          · have e1 : ds = ds' := Option.some_inj.mp hds'
            have e2 : de = de' := Option.some_inj.mp hde'
            subst e1
            subst e2
            rcases hbad with hbad | hbad
            · exact absurd hbad hlt
            · exact absurd hbad hdiff

/-- C9 (witness): both strings are non-empty, and on a well-formed in-order
short range the validator succeeds with no message. -/
theorem validate_date_range_spec_witness :
    ("2024-01-01" : String) ≠ "" ∧ ("2024-06-30" : String) ≠ ""
  ∧ (validate_date_range (some "2024-01-01") (some "2024-06-30")).2 = none :=
  ⟨by decide, by decide,
   (validate_date_range_spec "2024-01-01" "2024-06-30" (by decide) (by decide)).2
     (by decide)⟩
